import Mathlib

/-!
Shallow embedding of `src/services/enhanced_validation_system.py`
(class `EnhancedValidationSystem`) and proofs about the claims of the
specification.

Modelling conventions:
* Python values reachable from an "analysis" dictionary are modelled by
  the inductive type `PyVal` (None, numbers, strings, lists, dicts with
  string keys, matching the declared type `Dict[str, Any]` of the inputs).
  Python `bool`/`int`/`float` are merged into one rational-number
  constructor: the module never distinguishes them (its `isinstance`
  checks mention only `list`, `dict` and `str`), and `bool` is a subtype
  of `int` in Python.
* Fallible Python expressions are modelled in `Except PyErr`.
  The module imports only `logging`, `time`, `typing`, `datetime` and
  `services.auto_save_manager` (file lines 8-12); the name `json` used in
  `_detect_simulation_with_tolerance` (line 277) is therefore unbound and
  evaluating it raises `NameError` before anything else in that function
  runs, which the embedding reflects directly.
* `datetime.now().isoformat()` is an explicit `now : String` parameter.
* The collaborator `salvar_etapa` / `salvar_erro` may itself raise; its
  behaviour is a parameter (`etapaFails`, keyed by the etapa name, and
  `erroFails`).
-/

inductive PyVal where
  | none : PyVal
  | num (q : ℚ) : PyVal
  | str (s : String) : PyVal
  | list (xs : List PyVal) : PyVal
  | dict (kvs : List (String × PyVal)) : PyVal

/-- A Python dictionary with string keys, as passed to the validator. -/
abbrev PyDict := List (String × PyVal)

/-- Python errors relevant to this module.  The payload is the text that
`str(e)` would produce (approximated for type/attribute errors, whose
exact wording no claim depends on). -/
inductive PyErr where
  | nameError (msg : String) : PyErr
  | typeError (msg : String) : PyErr
  | attributeError (msg : String) : PyErr
  | keyError (msg : String) : PyErr
  | collaboratorError (msg : String) : PyErr
deriving DecidableEq

def PyErr.text : PyErr → String
  | .nameError m => m
  | .typeError m => m
  | .attributeError m => m
  | .keyError m => m
  | .collaboratorError m => m

/-- Python truthiness (`bool(v)`) for the modelled values. -/
def truthy : PyVal → Bool
  | .none => false
  | .num q => decide (q ≠ 0)
  | .str s => !(s.isEmpty)
  | .list xs => !(xs.isEmpty)
  | .dict kvs => !(kvs.isEmpty)

/-- `kvs.get(k, d)` on an association list (first binding wins). -/
def aGet (kvs : PyDict) (k : String) (d : PyVal) : PyVal :=
  match kvs.find? (fun kv => kv.1 == k) with
  | Option.some kv => kv.2
  | Option.none => d

/-- `k in kvs and kvs[k]` for a dict: the key is present with a truthy value. -/
def keyTruthy (kvs : PyDict) (k : String) : Bool :=
  match kvs.find? (fun kv => kv.1 == k) with
  | Option.some kv => truthy kv.2
  | Option.none => false

/-- The method call `v.get(k, d)`: only dicts have `.get`; every other
value raises `AttributeError`. -/
def pyMethodGet (v : PyVal) (k : String) (d : PyVal) : Except PyErr PyVal :=
  match v with
  | .dict kvs => .ok (aGet kvs k d)
  | _ => .error (.attributeError ("object has no attribute get: " ++ k))

/-- Numeric coercion used for Python arithmetic/comparisons against a
number: non-numbers raise `TypeError`. -/
def pyAsNum (v : PyVal) : Except PyErr ℚ :=
  match v with
  | .num q => .ok q
  | _ => .error (.typeError "unsupported operand type")

/-- Python `len(v)`: defined for strings, lists and dicts; raises
`TypeError` otherwise. -/
def pyLen (v : PyVal) : Except PyErr ℕ :=
  match v with
  | .str s => .ok s.length
  | .list xs => .ok xs.length
  | .dict kvs => .ok kvs.length
  | _ => .error (.typeError "object has no len")

/-- Substring test on character lists (used for Python `in` on strings):
`prefL p l` is `p` being an initial segment of `l`. -/
def prefL : List Char → List Char → Bool
  | [], _ => true
  | _ :: _, [] => false
  | a :: as, b :: bs => a == b && prefL as bs

/-- `subL p l`: `p` occurs contiguously inside `l`. -/
def subL (p : List Char) : List Char → Bool
  | [] => p.isEmpty
  | b :: bs => prefL p (b :: bs) || subL p bs

/-- Python `k in s` for strings: substring containment. -/
def strContains (sub s : String) : Bool :=
  subL sub.toList s.toList

/-- Python `k in v` for the modelled values: key test on dicts, substring
test on strings, membership on lists (a string element equal to `k`;
numbers and containers never equal a string in Python), `TypeError`
otherwise. -/
def pyIn (k : String) (v : PyVal) : Except PyErr Bool :=
  match v with
  | .dict kvs => .ok (kvs.any (fun kv => kv.1 == k))
  | .str s => .ok (strContains k s)
  | .list xs => .ok (xs.any (fun x => match x with | .str s => s == k | _ => false))
  | _ => .error (.typeError "argument is not iterable")

/-- Python `v[k]` for a string index `k`: lookup on dicts (`KeyError` when
absent), `TypeError` on anything else. -/
def pyIndex (v : PyVal) (k : String) : Except PyErr PyVal :=
  match v with
  | .dict kvs =>
    match kvs.find? (fun kv => kv.1 == k) with
    | Option.some kv => .ok kv.2
    | Option.none => .error (.keyError k)
  | _ => .error (.typeError "indices must be integers")

/-- Python `min(a, b)` on numbers, via the executable rational
comparison (kernel-reducible, unlike the order-theoretic `min`). -/
def pymin (a b : ℚ) : ℚ := if Rat.blt b a then b else a

/-- One validation-level threshold record (`self.validation_levels[...]`,
file lines 21-50). -/
structure Profile where
  min_content_length : ℚ
  min_sources : ℚ
  min_insights : ℚ
  min_quality_score : ℚ
  simulation_tolerance : ℚ
deriving DecidableEq

def STRICT : Profile := ⟨5000, 5, 10, 80, 0⟩

def MODERATE : Profile := ⟨2000, 3, 5, 60, 5⟩

def FLEXIBLE : Profile := ⟨500, 1, 3, 40, 10⟩

def EMERGENCY : Profile := ⟨100, 0, 1, 20, 20⟩

/-- The fixed table of levels, in the order tried by
`validate_with_progressive_tolerance` (line 67). -/
def validation_levels : List (String × Profile) :=
  [("STRICT", STRICT), ("MODERATE", MODERATE), ("FLEXIBLE", FLEXIBLE), ("EMERGENCY", EMERGENCY)]

/-- `_validate_structure_flexible` (lines 162-185): 50 points for a truthy
`avatar_ultra_detalhado`, plus `50/5` per truthy optional section,
capped at 100.  Total (never raises). -/
def validate_structure_flexible (analysis : PyDict) (_t : Profile) : ℚ :=
  let essential_sections := ["avatar_ultra_detalhado"]
  let s1 : ℚ := essential_sections.foldl
    (fun acc sec => if keyTruthy analysis sec then acc + 50 else acc) 0
  let optional_sections := ["drivers_mentais_customizados", "provas_visuais_sugeridas",
    "sistema_anti_objecao", "pre_pitch_invisivel", "insights_exclusivos"]
  let bonus_per_section : ℚ := 50 / (optional_sections.length : ℚ)
  let s2 : ℚ := optional_sections.foldl
    (fun acc sec => if keyTruthy analysis sec then acc + bonus_per_section else acc) s1
  pymin s2 100

/-- The "score por conteúdo" / "score por fontes" shape shared by lines
198-210: full 30 points at or above the threshold, linear scaling for a
positive value below it, nothing otherwise. -/
def researchPart (threshold v : ℚ) : ℚ :=
  if threshold ≤ v then 30
  else if 0 < v then v / threshold * 30
  else 0

/-- `_validate_research_flexible` (lines 187-216), written with the
fallible lookups as explicit matches (each `.get` on a non-dict and
each comparison/arithmetic on a non-number raises). -/
def validate_research_flexible (analysis : PyDict) (t : Profile) : Except PyErr ℚ :=
  if !truthy (aGet analysis "pesquisa_web_massiva" (.dict [])) then .ok 20
  else
    match pyMethodGet (aGet analysis "pesquisa_web_massiva" (.dict [])) "estatisticas" (.dict []) with
    | .error e => .error e
    | .ok stats =>
      match pyMethodGet stats "total_conteudo" (.num 0) with
      | .error e => .error e
      | .ok total_content =>
        match pyAsNum total_content with
        | .error e => .error e
        | .ok tc =>
          match pyMethodGet stats "fontes_unicas" (.num 0) with
          | .error e => .error e
          | .ok unique_sources =>
            match pyAsNum unique_sources with
            | .error e => .error e
            | .ok us =>
              match pyMethodGet stats "qualidade_media" (.num 0) with
              | .error e => .error e
              | .ok avg_quality =>
                match pyAsNum avg_quality with
                | .error e => .error e
                | .ok aq =>
                  .ok (pymin (20 + researchPart t.min_content_length tc +
                    researchPart t.min_sources us + aq / 100 * 20) 100)

/-- One iteration of the avatar-section loop (lines 234-241):
`section in avatar and avatar[section]` followed by the `isinstance`
ladder deciding whether the section earns its share. -/
def avatarSectionHit (avatar : PyVal) (sec : String) : Except PyErr Bool := do
  let present ← pyIn sec avatar
  if !present then
    return false
  let v ← pyIndex avatar sec
  if !truthy v then
    return false
  match v with
  | .list xs => return decide (0 < xs.length)
  | .dict kvs => return decide (0 < kvs.length)
  | .str s => return decide (10 < s.length)
  | _ => return false

/-- `_validate_avatar_flexible` (lines 218-243). -/
def validate_avatar_flexible (analysis : PyDict) (_t : Profile) : Except PyErr ℚ := do
  let avatar := aGet analysis "avatar_ultra_detalhado" (.dict [])
  if !truthy avatar then
    return 0
  let avatar_sections := ["perfil_demografico", "perfil_psicografico",
    "dores_viscerais", "desejos_secretos"]
  let section_score : ℚ := 80 / (avatar_sections.length : ℚ)
  let score ← avatar_sections.foldlM
    (fun (acc : ℚ) sec => do
      let hit ← avatarSectionHit avatar sec
      return if hit then acc + section_score else acc) (20 : ℚ)
  return pymin score 100

/-- `_validate_insights_flexible` (lines 245-266). -/
def validate_insights_flexible (analysis : PyDict) (t : Profile) : Except PyErr ℚ := do
  let insights := aGet analysis "insights_exclusivos" (.list [])
  match insights with
  | .list xs =>
    if xs.isEmpty then
      return 10
    let countPart : ℚ :=
      if t.min_insights ≤ (xs.length : ℚ) then 50
      else if 0 < xs.length then (xs.length : ℚ) / t.min_insights * 50
      else 0
    let lens ← xs.mapM pyLen
    let substantial := lens.filter (fun n => decide (50 < n))
    let qualityPart : ℚ :=
      if !substantial.isEmpty then (substantial.length : ℚ) / (xs.length : ℚ) * 40
      else 0
    return pymin (10 + countPart + qualityPart) 100
  | v =>
    if !truthy v then
      return 10
    else
      return 10

/-- `_detect_simulation_with_tolerance` (lines 268-294).  Its first
executable statement is `analysis_str = json.dumps(analysis, ...)`
(line 277), but the module never imports `json` (lines 8-12), so
evaluating the name `json` raises `NameError: name 'json' is not
defined` on every input, before the indicator counting and the
tolerance tiers (lines 280-294) can run. -/
def detect_simulation_with_tolerance (_analysis : PyDict) (_t : Profile) : Except PyErr ℚ :=
  .error (.nameError "name 'json' is not defined")

/-- The validation-verdict dictionary.  Keys that a given code path does
not set are modelled as `Option.none` / `false`. -/
structure VResult where
  valid : Bool
  level : String
  quality_score : ℚ
  errors : List String
  warnings : List String
  component_scores : List (String × ℚ)
  primary_reason : String
  recommendation : Option String
  validation_level : Option String
  emergency_mode : Bool
  data_preserved : Bool
  can_continue : Bool
  forced : Bool
  timestamp : String
deriving DecidableEq

/-- The result `_validate_at_level` returns from its `except` branch
(lines 157-160): the partial `component_scores` accumulated before the
exception, the error recorded, `valid` still `False`. -/
def levelErrorResult (level now : String) (comps : List (String × ℚ)) (e : PyErr) : VResult :=
  { valid := false
    level := level
    quality_score := 0
    errors := ["Erro na validação: " ++ e.text]
    warnings := []
    component_scores := comps
    primary_reason := "Erro técnico: " ++ e.text
    recommendation := Option.none
    validation_level := Option.none
    emergency_mode := false
    data_preserved := false
    can_continue := false
    forced := false
    timestamp := now }

/-- `_validate_at_level` (lines 103-160).  The five scorers run in order,
mutating `component_scores` as they go; the first exception jumps to
the `except` branch with the scores collected so far. -/
def validate_at_level (analysis : PyDict) (level : String) (t : Profile) (now : String) : VResult :=
  let s1 := validate_structure_flexible analysis t
  match validate_research_flexible analysis t with
  | .error e => levelErrorResult level now [("structure", s1)] e
  | .ok s2 =>
    match validate_avatar_flexible analysis t with
    | .error e => levelErrorResult level now [("structure", s1), ("research", s2)] e
    | .ok s3 =>
      match validate_insights_flexible analysis t with
      | .error e =>
        levelErrorResult level now [("structure", s1), ("research", s2), ("avatar", s3)] e
      | .ok s4 =>
        match detect_simulation_with_tolerance analysis t with
        | .error e =>
          levelErrorResult level now
            [("structure", s1), ("research", s2), ("avatar", s3), ("insights", s4)] e
        | .ok s5 =>
          let q : ℚ := (s1 + s2 + s3 + s4 + s5) / 5
          { valid := decide (t.min_quality_score ≤ q)
            level := level
            quality_score := q
            errors := []
            warnings := []
            component_scores :=
              [("structure", s1), ("research", s2), ("avatar", s3),
               ("insights", s4), ("simulation", s5)]
            primary_reason :=
              if t.min_quality_score ≤ q then ""
              else "Score " ++ toString q ++ "% < " ++ toString t.min_quality_score ++ "%"
            recommendation := Option.none
            validation_level := Option.none
            emergency_mode := false
            data_preserved := false
            can_continue := false
            forced := false
            timestamp := now }

/-- `_get_level_recommendation` (lines 296-306). -/
def get_level_recommendation (level : String) : String :=
  if level == "STRICT" then
    "✅ EXCELENTE: Análise de qualidade premium - prosseguir com confiança total"
  else if level == "MODERATE" then
    "👍 BOM: Análise de qualidade adequada - prosseguir com implementação"
  else if level == "FLEXIBLE" then
    "⚠️ ACEITÁVEL: Análise com limitações - considere melhorar APIs para qualidade superior"
  else if level == "EMERGENCY" then
    "🚨 EMERGÊNCIA: Análise mínima - recomenda-se reexecutar com configuração completa"
  else "Análise validada"

/-- The emergency-override dictionary built by `_create_emergency_validation`
(lines 313-336). -/
def emergencyVerdict (now : String) : VResult :=
  { valid := true
    level := "EMERGENCY_OVERRIDE"
    quality_score := 25
    errors := []
    warnings := ["Validação em modo de emergência", "Qualidade pode estar comprometida",
      "Dados intermediários preservados"]
    component_scores := [("structure", 25), ("research", 25), ("avatar", 25),
      ("insights", 25), ("simulation", 25)]
    primary_reason := "Modo de emergência ativado - análise prossegue com dados disponíveis"
    recommendation := Option.some "🚨 EMERGÊNCIA: Configure APIs e reexecute para qualidade completa"
    validation_level := Option.none
    emergency_mode := true
    data_preserved := true
    can_continue := true
    forced := false
    timestamp := now }

/-- `_create_emergency_validation` (lines 308-342): after building the
dictionary it calls `salvar_etapa("validacao_emergencia", ...)`; if that
collaborator call raises, the exception propagates to the caller. -/
def create_emergency_validation (etapaFails : String → Bool) (now : String) :
    Except PyErr VResult :=
  if etapaFails "validacao_emergencia" then .error (.collaboratorError "salvar_etapa")
  else .ok (emergencyVerdict now)

/-- The accepted-verdict decoration of lines 76-77: the extra
`validation_level` and `recommendation` keys. -/
def acceptedResult (r : VResult) (level : String) : VResult :=
  { r with validation_level := Option.some level
           recommendation := Option.some (get_level_recommendation level) }

/-- The `for level in validation_levels` loop of lines 69-94 (the body of
the outer `try`), ending in the fall-through call to
`_create_emergency_validation` at line 93.  After a rejected level the
collaborator call `salvar_etapa("validacao_tentativa_" + level.lower(), ...)`
(line 83) runs; if it raises, the loop aborts with that exception. -/
def validateLoop (etapaFails : String → Bool) (analysis : PyDict) (now : String) :
    List (String × Profile) → Except PyErr VResult
  | [] => create_emergency_validation etapaFails now
  | (name, t) :: rest =>
    let r := validate_at_level analysis name t now
    if r.valid then .ok (acceptedResult r name)
    else if etapaFails ("validacao_tentativa_" ++ name.toLower) then
      .error (.collaboratorError "salvar_etapa")
    else validateLoop etapaFails analysis now rest

/-- `validate_with_progressive_tolerance` (lines 56-101).  The outer
`except` (lines 96-101) catches any exception escaping the loop, calls
`salvar_erro` (which may itself raise and then propagate out of the
function) and falls back to `_create_emergency_validation` (whose own
collaborator call may also raise and propagate). -/
def validate_with_progressive_tolerance (etapaFails : String → Bool) (erroFails : Bool)
    (analysis : PyDict) (_session_id : Option String) (now : String) : Except PyErr VResult :=
  match validateLoop etapaFails analysis now validation_levels with
  | .ok v => .ok v
  | .error _ =>
    if erroFails then .error (.collaboratorError "salvar_erro")
    else create_emergency_validation etapaFails now

instance {ε α : Type} [DecidableEq ε] [DecidableEq α] : DecidableEq (Except ε α) := fun a b =>
  match a, b with
  | .ok x, .ok y =>
    if h : x = y then Decidable.isTrue (by rw [h])
    else Decidable.isFalse (fun c => h (by injection c))
  | .error x, .error y =>
    if h : x = y then Decidable.isTrue (by rw [h])
    else Decidable.isFalse (fun c => h (by injection c))
  | .ok _, .error _ => Decidable.isFalse (fun c => Except.noConfusion c)
  | .error _, .ok _ => Decidable.isFalse (fun c => Except.noConfusion c)

/-- The all-succeeding collaborator (no `salvar_etapa` call raises). -/
def collabOk : String → Bool := fun _ => false

/-- `force_validation_pass` (lines 492-518): fixed always-valid verdict;
its trailing `salvar_etapa("validacao_forcada", ...)` may raise and
propagate. -/
def forcedVerdict (reason now : String) : VResult :=
  { valid := true
    level := "FORCED_PASS"
    quality_score := 50
    errors := []
    warnings := ["Validação forçada: " ++ reason]
    component_scores := [("structure", 50), ("research", 50), ("avatar", 50),
      ("insights", 50), ("simulation", 50)]
    primary_reason := reason
    recommendation := Option.some "Validação forçada - prosseguir com cautela"
    validation_level := Option.none
    emergency_mode := false
    data_preserved := false
    can_continue := false
    forced := true
    timestamp := now }

def force_validation_pass (etapaFails : String → Bool) (_analysis : PyDict)
    (reason : String) (now : String) : Except PyErr VResult :=
  if etapaFails "validacao_forcada" then .error (.collaboratorError "salvar_etapa")
  else .ok (forcedVerdict reason now)

/-- `should_generate_pdf_flexible` (lines 344-361). -/
def should_generate_pdf_flexible (analysis : PyDict) : Except PyErr (Bool × String) :=
  if analysis.isEmpty then .ok (false, "Análise vazia")
  else if !truthy (aGet analysis "avatar_ultra_detalhado" PyVal.none) then
    .ok (false, "Avatar ausente - mínimo necessário para PDF")
  else
    match pyLen (aGet analysis "insights_exclusivos" (.list [])) with
    | .error e => .error e
    | .ok n =>
      if n < 1 then .ok (false, "Nenhum insight disponível para PDF")
      else .ok (true, "Análise adequada para PDF (critérios flexíveis)")

/- Python `repr` for the modelled values, as far as the claims need it:
numbers render via their rational representation (letter-free, like
Python's digit strings), strings are quoted without escaping (the
cleaning markers contain no quote or backslash, so marker containment
is unaffected), containers use Python's bracket/separator layout. -/
mutual

def pyRepr : PyVal → String
  | .none => "None"
  | .num q => toString q
  | .str s => "'" ++ s ++ "'"
  | .list xs => "[" ++ reprItems xs ++ "]"
  | .dict kvs => "\x7b" ++ reprEntries kvs ++ "\x7d"

def reprItems : List PyVal → String
  | [] => ""
  | [x] => pyRepr x
  | x :: y :: rest => pyRepr x ++ ", " ++ reprItems (y :: rest)

def reprEntries : List (String × PyVal) → String
  | [] => ""
  | [kv] => "'" ++ kv.1 ++ "': " ++ pyRepr kv.2
  | kv :: kv2 :: rest => "'" ++ kv.1 ++ "': " ++ pyRepr kv.2 ++ ", " ++ reprEntries (kv2 :: rest)

end

/-- Python `str(v)`: the string itself for strings, `repr` otherwise. -/
def pyStr : PyVal → String
  | .str s => s
  | v => pyRepr v

/-- The fixed `invalid_indicators` of `clean_analysis_for_output_flexible`
(line 369). -/
def invalid_indicators : List String := ["ERRO_", "FALHA_", "INVALID_"]

/-- `any(indicator in str(x).upper() for indicator in invalid_indicators)`:
whether the upper-cased text contains one of the markers.  Upper-casing
is per-character (`Char.toUpper`), faithful for the ASCII markers. -/
def containsMarker (s : String) : Bool :=
  invalid_indicators.any (fun m => subL m.toList (s.toList.map Char.toUpper))

/- `clean_recursive` (lines 371-379): dict entries are dropped when the
KEY contains a marker (values are only cleaned recursively), list items
are dropped when their whole `str()` rendering contains a marker. -/
mutual

def cleanRec : PyVal → PyVal
  | .dict kvs => .dict (cleanEntries kvs)
  | .list xs => .list (cleanItems xs)
  | .none => .none
  | .num q => .num q
  | .str s => .str s

def cleanEntries : List (String × PyVal) → List (String × PyVal)
  | [] => []
  | (k, v) :: rest =>
    if containsMarker k then cleanEntries rest
    else (k, cleanRec v) :: cleanEntries rest

def cleanItems : List PyVal → List PyVal
  | [] => []
  | x :: rest =>
    if containsMarker (pyStr x) then cleanItems rest
    else cleanRec x :: cleanItems rest

end

/-- `cleaned['validation_metadata'] = ...`: Python dict assignment
(overwrite in place if the key exists, append otherwise). -/
def dictSet (kvs : PyDict) (k : String) (v : PyVal) : PyDict :=
  if kvs.any (fun kv => kv.1 == k) then
    kvs.map (fun kv => if kv.1 == k then (k, v) else kv)
  else kvs ++ [(k, v)]

/-- `clean_analysis_for_output_flexible` (lines 363-393): clean the dict
recursively, then attach a fresh `validation_metadata` entry whose
`original_size`/`cleaned_size` are the `len(str(...))` of the input and
of the cleaned dict (before the metadata is added). -/
def clean_analysis_for_output_flexible (analysis : PyDict) (now : String) : PyDict :=
  let cleaned := cleanEntries analysis
  dictSet cleaned "validation_metadata" (.dict
    [("cleaned_at", .str now),
     ("cleaning_level", .str "flexible"),
     ("original_size", .num ((pyStr (.dict analysis)).length : ℚ)),
     ("cleaned_size", .num ((pyStr (.dict cleaned)).length : ℚ)),
     ("data_preserved", .num 1),
     ("simulation_tolerance", .str "high")])

/-- The well-formedness property claim C3 ascribes to every returned
verdict: exactly the five named component scores, each within
`[0, 100]`, with `quality_score` their arithmetic mean (also within
`[0, 100]`). -/
def scoresWellFormed (v : VResult) : Prop :=
  v.component_scores.map Prod.fst =
    ["structure", "research", "avatar", "insights", "simulation"] ∧
  (∀ p ∈ v.component_scores, 0 ≤ p.2 ∧ p.2 ≤ 100) ∧
  v.quality_score = (v.component_scores.map Prod.snd).sum / 5 ∧
  0 ≤ v.quality_score ∧ v.quality_score ≤ 100

/-- The `qualidade_media` statistic the research scorer will divide by
100, when the lookups reach it, is a non-negative number (or absent /
not a number, in which case the scorer returns 20 or raises before
using it). -/
def researchAvgNonneg (analysis : PyDict) : Bool :=
  match aGet analysis "pesquisa_web_massiva" (.dict []) with
  | .dict kvs =>
    match aGet kvs "estatisticas" (.dict []) with
    | .dict stats =>
      match aGet stats "qualidade_media" (.num 0) with
      | .num r => decide (0 ≤ r)
      | _ => true
    | _ => true
  | _ => true

/-- Input whose research statistics carry a negative `qualidade_media`:
the scorer has no lower clamp, so its result drops below 20. -/
def negResearch : PyDict :=
  [("pesquisa_web_massiva", .dict [("estatisticas", .dict [("qualidade_media", .num (-1000))])])]

/-- Research statistics with a non-negative `qualidade_media`: the
research score stays at or above its base 20. -/
def posResearch : PyDict :=
  [("pesquisa_web_massiva", .dict [("estatisticas", .dict [("qualidade_media", .num 50)])])]

/-- An analysis whose avatar section is PRESENT but empty (falsy): the
PDF gate rejects it although the claim says presence suffices. -/
def pdfEmptyAvatar : PyDict :=
  [("avatar_ultra_detalhado", .dict []), ("insights_exclusivos", .list [.str "insight"])]

/-- An analysis whose `insights_exclusivos` is a number: `len(...)`
raises `TypeError`, so the PDF gate raises instead of returning. -/
def pdfBadInsights : PyDict :=
  [("avatar_ultra_detalhado", .dict [("x", .str "ok")]), ("insights_exclusivos", .num 5)]

/-- A map entry whose VALUE contains a banned marker under a clean key:
the cleaner keeps it. -/
def cleanSample : PyDict := [("k", .str "ERRO_X")]

/-- The always-raising collaborator. -/
def collabAllFail : String → Bool := fun _ => true

/-- A collaborator that raises on every per-attempt `salvar_etapa` but
succeeds on the emergency one. -/
def collabTentativaFail : String → Bool := fun k => !(k == "validacao_emergencia")

/-- The concrete high-quality analysis used while settling C1: intended
component scores (structure, research, avatar, insights) are
100, 98, 100 and 100, and its serialization contains none of the
simulation-indicator phrases, so under the spec's reading (four tier
thresholds on the phrase count) the STRICT profile's threshold 80 would
be met.  The code nevertheless returns the emergency override. -/
def richAnalysis : PyDict :=
  [("avatar_ultra_detalhado", .dict
     [("perfil_demografico", .dict [("idade", .str "de vinte e cinco a quarenta anos")]),
      ("perfil_psicografico", .dict [("valores", .str "crescimento pessoal e autonomia financeira")]),
      ("dores_viscerais", .list [.str "medo constante de estagnar na carreira profissional e perder espaco"]),
      ("desejos_secretos", .list [.str "reconhecimento como autoridade no mercado em que atua hoje"])]),
   ("drivers_mentais_customizados", .list [.str "driver numero um", .str "driver numero dois"]),
   ("provas_visuais_sugeridas", .list [.str "prova visual numero um"]),
   ("sistema_anti_objecao", .dict [("objecao_preco", .str "resposta detalhada sobre valor")]),
   ("pre_pitch_invisivel", .dict [("roteiro", .str "roteiro completo de abertura")]),
   ("insights_exclusivos", .list
     [.str "o mercado brasileiro de consultoria digital cresce de forma acelerada e sustentada",
      .str "a audiencia valoriza provas concretas de resultado muito mais do que promessas vagas",
      .str "os concorrentes diretos ignoram o segmento de profissionais em transicao de carreira",
      .str "conteudo em video curto gera tres vezes mais engajamento que posts longos no blog",
      .str "a objecao dominante e a falta de tempo, nao a falta de dinheiro, entre os leads",
      .str "parcerias com influenciadores de nicho reduzem o custo de aquisicao pela metade",
      .str "a retencao melhora quando o onboarding inclui uma sessao individual de diagnostico",
      .str "clientes que entram por indicacao permanecem o dobro do tempo na base ativa",
      .str "a percepcao de autoridade cresce com publicacoes consistentes em canais proprios",
      .str "ofertas sazonais ancoradas em datas do setor superam campanhas genericas continuas"]),
   ("pesquisa_web_massiva", .dict
     [("estatisticas", .dict
       [("total_conteudo", .num 12000), ("fontes_unicas", .num 8), ("qualidade_media", .num 90)])])]

/-- `Seg p l`: the list `p` occurs contiguously inside `l` (the
propositional counterpart of `subL`). -/
def Seg (p l : List Char) : Prop := ∃ a b, l = a ++ p ++ b

/-- Projection used to compare two cleaning outputs: the
`original_size` recorded in a dict's `validation_metadata`. -/
def metaOriginalSize (d : PyDict) : PyVal :=
  match aGet d "validation_metadata" .none with
  | .dict m => aGet m "original_size" .none
  | _ => .none

/-- Structural induction for `PyVal`, with pointwise hypotheses for the
elements of lists and the values of dicts. -/
def PyVal.inductionOn {motive : PyVal → Prop}
    (hnone : motive .none) (hnum : ∀ q, motive (.num q)) (hstr : ∀ s, motive (.str s))
    (hlist : ∀ xs, (∀ x ∈ xs, motive x) → motive (.list xs))
    (hdict : ∀ kvs, (∀ kv ∈ kvs, motive kv.2) → motive (.dict kvs)) :
    ∀ v, motive v
  | .none => hnone
  | .num q => hnum q
  | .str s => hstr s
  | .list xs => hlist xs (fun x _hx =>
      PyVal.inductionOn hnone hnum hstr hlist hdict x)
  | .dict kvs => hdict kvs (fun kv _hkv =>
      PyVal.inductionOn hnone hnum hstr hlist hdict kv.2)
termination_by v => sizeOf v
decreasing_by
  · have h1 := List.sizeOf_lt_of_mem _hx
    simp only [PyVal.list.sizeOf_spec]
    omega
  · have h1 := List.sizeOf_lt_of_mem _hkv
    obtain ⟨a, b⟩ := kv
    simp only [PyVal.dict.sizeOf_spec]
    simp only [Prod.mk.sizeOf_spec] at h1
    omega

/-!  ## General lemmas about the validator  -/

/-- `pymin` agrees with the order-theoretic `min`. -/
lemma pymin_eq (a b : ℚ) : pymin a b = min a b := by
  by_cases h : b < a
  · have hb : Rat.blt b a = true := h
    rw [pymin, hb, if_pos rfl]
    exact (min_eq_right (le_of_lt h)).symm
  · have hb : Rat.blt b a = false := by
      by_contra hc
      exact h (Bool.of_not_eq_false hc)
    rw [pymin, hb]
    simp only [Bool.false_eq_true, if_false]
    exact (min_eq_left (not_lt.mp h)).symm

/-- Every call to `_validate_at_level` takes the `except` branch: the
simulation scorer raises `NameError` whenever it is reached, and any
earlier scorer failure lands in the same branch. -/
lemma validate_at_level_error_branch (analysis : PyDict) (level : String) (t : Profile)
    (now : String) :
    ∃ comps e, validate_at_level analysis level t now = levelErrorResult level now comps e := by
  unfold validate_at_level
  cases h2 : validate_research_flexible analysis t with
  | error e => exact ⟨_, e, rfl⟩
  | ok s2 =>
    cases h3 : validate_avatar_flexible analysis t with
    | error e => exact ⟨_, e, rfl⟩
    | ok s3 =>
      cases h4 : validate_insights_flexible analysis t with
      | error e => exact ⟨_, e, rfl⟩
      | ok s4 => exact ⟨_, PyErr.nameError "name 'json' is not defined", rfl⟩

lemma validate_at_level_not_valid (analysis : PyDict) (level : String) (t : Profile)
    (now : String) : (validate_at_level analysis level t now).valid = false := by
  obtain ⟨comps, e, h⟩ := validate_at_level_error_branch analysis level t now
  rw [h]; rfl

lemma validate_at_level_errors_recorded (analysis : PyDict) (level : String) (t : Profile)
    (now : String) :
    ∃ e : PyErr, (validate_at_level analysis level t now).errors =
      ["Erro na validação: " ++ e.text] := by
  obtain ⟨comps, e, h⟩ := validate_at_level_error_branch analysis level t now
  exact ⟨e, by rw [h]; rfl⟩

/-- With a collaborator that never raises, the level loop always falls
through to the emergency validation. -/
lemma validateLoop_collabOk (analysis : PyDict) (now : String) :
    ∀ L : List (String × Profile),
      validateLoop collabOk analysis now L = .ok (emergencyVerdict now) := by
  intro L
  induction L with
  | nil => rfl
  | cons hd tl ih =>
    obtain ⟨name, t⟩ := hd
    rw [validateLoop, validate_at_level_not_valid analysis name t now]
    simpa [collabOk] using ih

/-- With a collaborator that never raises, `validate_with_progressive_tolerance`
always returns the emergency-override verdict. -/
lemma validate_collabOk (analysis : PyDict) (sid : Option String) (now : String) :
    validate_with_progressive_tolerance collabOk false analysis sid now =
      .ok (emergencyVerdict now) := by
  unfold validate_with_progressive_tolerance
  rw [validateLoop_collabOk]

/-!  ## Claim theorems  -/

/-- C1: evaluation of the code at the failing input.  The four computable
component scores of `richAnalysis` are 100, 98, 100, 100 (mean ≥ 80
even before the simulation score), yet the validator returns the
`EMERGENCY_OVERRIDE` verdict and not a profile-level one, because
scoring raises `NameError` (missing `json` import) at every profile:
the first-satisfied-profile behaviour the claim describes is
unreachable in the code. -/
theorem claim_C1_code_eval :
    validate_structure_flexible richAnalysis STRICT = 100 ∧
    validate_research_flexible richAnalysis STRICT = .ok 98 ∧
    validate_avatar_flexible richAnalysis STRICT = .ok 100 ∧
    validate_insights_flexible richAnalysis STRICT = .ok 100 ∧
    validate_with_progressive_tolerance collabOk false richAnalysis Option.none "T" =
      .ok (emergencyVerdict "T") ∧
    (emergencyVerdict "T").level = "EMERGENCY_OVERRIDE" := by
  refine ⟨?_, ?_, ?_, ?_, validate_collabOk richAnalysis Option.none "T", rfl⟩
  · with_unfolding_all rfl
  · with_unfolding_all rfl
  · with_unfolding_all rfl
  · with_unfolding_all rfl

/-- C2: with the logging collaborator behaving normally, the validator
never propagates an exception: every call returns a verdict (`.ok`),
and the internal scoring failure at each profile is caught and recorded
in that profile's `errors` list with `valid = False`. -/
theorem claim_C2_never_raises (analysis : PyDict) (sid : Option String) (now : String)
    (level : String) (t : Profile) :
    (∃ v, validate_with_progressive_tolerance collabOk false analysis sid now = .ok v) ∧
    (validate_at_level analysis level t now).valid = false ∧
    (∃ e : PyErr, (validate_at_level analysis level t now).errors =
      ["Erro na validação: " ++ e.text]) := by
  exact ⟨⟨emergencyVerdict now, validate_collabOk analysis sid now⟩,
    validate_at_level_not_valid analysis level t now,
    validate_at_level_errors_recorded analysis level t now⟩

/-- C2 witness at a concrete input. -/
theorem claim_C2_never_raises_witness :
    (∃ v, validate_with_progressive_tolerance collabOk false [] Option.none "T" = .ok v) ∧
    (validate_at_level [] "STRICT" STRICT "T").valid = false ∧
    (∃ e : PyErr, (validate_at_level [] "STRICT" STRICT "T").errors =
      ["Erro na validação: " ++ e.text]) :=
  claim_C2_never_raises [] Option.none "T" "STRICT" STRICT

lemma scoresWellFormed_emergency (now : String) : scoresWellFormed (emergencyVerdict now) := by
  refine ⟨rfl, ?_, ?_, ?_, ?_⟩
  · intro p hp
    simp only [emergencyVerdict, List.mem_cons, List.not_mem_nil, or_false] at hp
    rcases hp with h | h | h | h | h <;> subst h <;> exact ⟨by norm_num, by norm_num⟩
  · show (25 : ℚ) = _
    simp only [emergencyVerdict, List.map_cons, List.map_nil, List.sum_cons, List.sum_nil]
    norm_num
  · show (0 : ℚ) ≤ 25
    norm_num
  · show (25 : ℚ) ≤ 100
    norm_num

lemma scoresWellFormed_forced (reason now : String) :
    scoresWellFormed (forcedVerdict reason now) := by
  refine ⟨rfl, ?_, ?_, ?_, ?_⟩
  · intro p hp
    simp only [forcedVerdict, List.mem_cons, List.not_mem_nil, or_false] at hp
    rcases hp with h | h | h | h | h <;> subst h <;> exact ⟨by norm_num, by norm_num⟩
  · show (50 : ℚ) = _
    simp only [forcedVerdict, List.map_cons, List.map_nil, List.sum_cons, List.sum_nil]
    norm_num
  · show (0 : ℚ) ≤ 50
    norm_num
  · show (50 : ℚ) ≤ 100
    norm_num

/-- C3: every verdict returned by `validate_with_progressive_tolerance`
(always the emergency override, given the honest collaborator) and
every forced-pass verdict has exactly the five named component scores,
each within `[0, 100]`, and `quality_score` equal to their arithmetic
mean (hence also within `[0, 100]`). -/
theorem claim_C3_scores_wellformed (analysis : PyDict) (sid : Option String)
    (reason now : String) :
    (validate_with_progressive_tolerance collabOk false analysis sid now =
        .ok (emergencyVerdict now) ∧
      scoresWellFormed (emergencyVerdict now)) ∧
    (force_validation_pass collabOk analysis reason now = .ok (forcedVerdict reason now) ∧
      scoresWellFormed (forcedVerdict reason now)) :=
  ⟨⟨validate_collabOk analysis sid now, scoresWellFormed_emergency now⟩,
   ⟨rfl, scoresWellFormed_forced reason now⟩⟩

/-- C3 witness at a concrete input. -/
theorem claim_C3_scores_wellformed_witness :
    (validate_with_progressive_tolerance collabOk false [] Option.none "T" =
        .ok (emergencyVerdict "T") ∧
      scoresWellFormed (emergencyVerdict "T")) ∧
    (force_validation_pass collabOk [] "motivo" "T" = .ok (forcedVerdict "motivo" "T") ∧
      scoresWellFormed (forcedVerdict "motivo" "T")) :=
  claim_C3_scores_wellformed [] Option.none "motivo" "T"

/-- C4: the empty analysis always yields the emergency override:
`valid = True`, `level = "EMERGENCY_OVERRIDE"`, `quality_score = 25`,
all five component scores 25. -/
theorem claim_C4_empty_emergency (sid : Option String) (now : String) :
    validate_with_progressive_tolerance collabOk false [] sid now =
      .ok (emergencyVerdict now) ∧
    (emergencyVerdict now).valid = true ∧
    (emergencyVerdict now).level = "EMERGENCY_OVERRIDE" ∧
    (emergencyVerdict now).quality_score = 25 ∧
    (emergencyVerdict now).component_scores =
      [("structure", 25), ("research", 25), ("avatar", 25), ("insights", 25),
       ("simulation", 25)] :=
  ⟨validate_collabOk [] sid now, rfl, rfl, rfl, rfl⟩

/-- C5: the simulation scorer never reaches its four-tier mapping: on
every input and profile it raises `NameError` (`json` is used at line
277 but never imported), so no count/tolerance tier score is ever
produced. -/
theorem claim_C5_simulation_raises (analysis : PyDict) (t : Profile) :
    detect_simulation_with_tolerance analysis t =
      .error (.nameError "name 'json' is not defined") := rfl

/-- C9: for every input and profile `_validate_at_level` takes its error
branch, and consequently every call to the validator (with the honest
collaborator) returns the `EMERGENCY_OVERRIDE` verdict, never a
profile-level one. -/
theorem claim_C9_always_emergency (analysis : PyDict) (level : String) (t : Profile)
    (now : String) (sid : Option String) :
    (∃ comps e, validate_at_level analysis level t now = levelErrorResult level now comps e) ∧
    validate_with_progressive_tolerance collabOk false analysis sid now =
      .ok (emergencyVerdict now) ∧
    (emergencyVerdict now).level = "EMERGENCY_OVERRIDE" :=
  ⟨validate_at_level_error_branch analysis level t now, validate_collabOk analysis sid now, rfl⟩

/-- Whatever the collaborator does, the level loop either falls through to
the emergency validation or aborts with the collaborator's exception. -/
lemma validateLoop_cases (ef : String → Bool) (analysis : PyDict) (now : String) :
    ∀ L : List (String × Profile),
      validateLoop ef analysis now L = create_emergency_validation ef now ∨
      validateLoop ef analysis now L = .error (.collaboratorError "salvar_etapa") := by
  intro L
  induction L with
  | nil => exact Or.inl rfl
  | cons hd tl ih =>
    obtain ⟨name, t⟩ := hd
    rw [validateLoop, validate_at_level_not_valid analysis name t now]
    simp only [Bool.false_eq_true, if_false]
    by_cases h : ef ("validacao_tentativa_" ++ name.toLower) = true
    · rw [if_pos h]
      exact Or.inr rfl
    · rw [if_neg h]
      exact ih

/-- C8 counterexample: with an always-raising collaborator the validator
raises (`salvar_etapa` inside `_create_emergency_validation` runs in the
`except` handler, so its exception propagates), while with the honest
collaborator it returns the emergency verdict — the two runs do NOT
produce the same verdict, contrary to the claim. -/
theorem claim_C8_counterexample :
    validate_with_progressive_tolerance collabAllFail false [] Option.none "T" =
      .error (.collaboratorError "salvar_etapa") ∧
    validate_with_progressive_tolerance collabOk false [] Option.none "T" =
      .ok (emergencyVerdict "T") ∧
    (Except.error (.collaboratorError "salvar_etapa") : Except PyErr VResult) ≠
      .ok (emergencyVerdict "T") := by
  refine ⟨by decide, by decide, by decide⟩

/-- C8 amended: collaborator failures in the per-attempt `salvar_etapa`
hooks never affect the returned verdict, PROVIDED the `salvar_erro`
call and the emergency-path `salvar_etapa` succeed; the run then
returns exactly what the honest-collaborator run returns. -/
theorem claim_C8_amended (ef : String → Bool) (analysis : PyDict) (sid : Option String)
    (now : String) (h : ef "validacao_emergencia" = false) :
    validate_with_progressive_tolerance ef false analysis sid now =
      validate_with_progressive_tolerance collabOk false analysis sid now := by
  rw [validate_collabOk analysis sid now]
  unfold validate_with_progressive_tolerance
  have hemerg : create_emergency_validation ef now = .ok (emergencyVerdict now) := by
    rw [create_emergency_validation, h]
    simp
  rcases validateLoop_cases ef analysis now validation_levels with hc | hc <;> rw [hc]
  · rw [hemerg]
  · simpa using hemerg

/-- C8 witness: a collaborator that raises on every per-attempt hook but
not on the emergency one leaves the verdict unchanged. -/
theorem claim_C8_amended_witness :
    validate_with_progressive_tolerance collabTentativaFail false [] Option.none "T" =
      validate_with_progressive_tolerance collabOk false [] Option.none "T" :=
  claim_C8_amended collabTentativaFail [] Option.none "T" (by decide)

lemma pyMethodGet_ok {v : PyVal} {k : String} {d w : PyVal}
    (h : pyMethodGet v k d = .ok w) : ∃ kvs, v = .dict kvs ∧ w = aGet kvs k d := by
  cases v with
  | dict kvs => exact ⟨kvs, rfl, by cases h; rfl⟩
  | none => cases h
  | num q => cases h
  | str s => cases h
  | list xs => cases h

lemma pyAsNum_ok {v : PyVal} {q : ℚ} (h : pyAsNum v = .ok q) : v = .num q := by
  cases v with
  | num r => cases h; rfl
  | none => cases h
  | str s => cases h
  | list xs => cases h
  | dict kvs => cases h

/-- The content/sources sub-scores of the research scorer are
non-negative: the scaling branch only runs when the value is strictly
between 0 and the (hence positive) threshold. -/
lemma researchPart_nonneg (m v : ℚ) : 0 ≤ researchPart m v := by
  unfold researchPart
  split
  · norm_num
  · rename_i h1
    split
    · rename_i h2
      have hm : 0 < m := lt_trans h2 (not_le.mp h1)
      have : 0 ≤ v / m := div_nonneg (le_of_lt h2) (le_of_lt hm)
      linarith
    · norm_num

/-- C10 counterexample: a present research section whose
`qualidade_media` is `-1000` drives the research score to `-180`,
far below the claimed lower bound of 20 (the scorer caps at 100 but
never clamps from below). -/
theorem claim_C10_counterexample :
    validate_research_flexible negResearch STRICT = .ok (-180) ∧ ((-180 : ℚ) < 20) :=
  ⟨by with_unfolding_all rfl, by norm_num⟩

/-- C10 amended: the research scorer returns exactly 20 when the research
section is absent or falsy; and whenever it returns a score at all and
the `qualidade_media` statistic it uses is non-negative (or absent),
the score lies in `[20, 100]`. -/
theorem claim_C10_amended (analysis : PyDict) (t : Profile) :
    (truthy (aGet analysis "pesquisa_web_massiva" (.dict [])) = false →
      validate_research_flexible analysis t = .ok 20) ∧
    (∀ q : ℚ, researchAvgNonneg analysis = true →
      validate_research_flexible analysis t = .ok q → 20 ≤ q ∧ q ≤ 100) := by
  constructor
  · intro h
    unfold validate_research_flexible
    rw [h]
    rfl
  · intro q havg hok
    unfold validate_research_flexible at hok
    by_cases htr : truthy (aGet analysis "pesquisa_web_massiva" (.dict [])) = true
    case neg =>
      rw [Bool.not_eq_true] at htr
      rw [htr] at hok
      cases hok
      norm_num
    case pos =>
      rw [htr] at hok
      simp only [Bool.not_true, Bool.false_eq_true, if_false] at hok
      cases hst : pyMethodGet (aGet analysis "pesquisa_web_massiva" (.dict []))
          "estatisticas" (.dict []) with
      | error e => simp only [hst] at hok; cases hok
      | ok stats =>
        simp only [hst] at hok
        cases htc : pyMethodGet stats "total_conteudo" (.num 0) with
        | error e => simp only [htc] at hok; cases hok
        | ok tcv =>
          simp only [htc] at hok
          cases htcn : pyAsNum tcv with
          | error e => simp only [htcn] at hok; cases hok
          | ok tc =>
            simp only [htcn] at hok
            cases hus : pyMethodGet stats "fontes_unicas" (.num 0) with
            | error e => simp only [hus] at hok; cases hok
            | ok usv =>
              simp only [hus] at hok
              cases husn : pyAsNum usv with
              | error e => simp only [husn] at hok; cases hok
              | ok us =>
                simp only [husn] at hok
                cases haq : pyMethodGet stats "qualidade_media" (.num 0) with
                | error e => simp only [haq] at hok; cases hok
                | ok aqv =>
                  simp only [haq] at hok
                  cases haqn : pyAsNum aqv with
                  | error e => simp only [haqn] at hok; cases hok
                  | ok aq =>
                    simp only [haqn] at hok
                    have hq : q = pymin (20 + researchPart t.min_content_length tc +
                        researchPart t.min_sources us + aq / 100 * 20) 100 := by
                      cases hok
                      rfl
                    obtain ⟨kvs, hkvs, hstats⟩ := pyMethodGet_ok hst
                    obtain ⟨sv, hsv, haqv⟩ := pyMethodGet_ok haq
                    have haqnum := pyAsNum_ok haqn
                    have h0aq : 0 ≤ aq := by
                      unfold researchAvgNonneg at havg
                      simp only [hkvs] at havg
                      simp only [← hstats, hsv] at havg
                      simp only [← haqv, haqnum] at havg
                      simpa using havg
                    have hcp := researchPart_nonneg t.min_content_length tc
                    have hsp := researchPart_nonneg t.min_sources us
                    have haqp : (0 : ℚ) ≤ aq / 100 * 20 := by positivity
                    rw [hq, pymin_eq]
                    constructor
                    · exact le_min (by linarith) (by norm_num)
                    · exact min_le_right _ _

/-- C10 witness: the absent-research case returns exactly 20, and a
present research section with non-negative average (50) scores 30,
inside the claimed `[20, 100]` band. -/
theorem claim_C10_amended_witness :
    validate_research_flexible [] STRICT = .ok 20 ∧
    ((20 : ℚ) ≤ 30 ∧ (30 : ℚ) ≤ 100) :=
  ⟨(claim_C10_amended [] STRICT).1 rfl,
   (claim_C10_amended posResearch STRICT).2 30 (by rfl) (by with_unfolding_all rfl)⟩

/-- C7 counterexample: an analysis whose avatar section is present but
empty is refused a PDF (claim says presence suffices), and an analysis
whose `insights_exclusivos` is a number makes the function raise
`TypeError` instead of returning a boolean at all. -/
theorem claim_C7_counterexample :
    should_generate_pdf_flexible pdfEmptyAvatar =
      .ok (false, "Avatar ausente - mínimo necessário para PDF") ∧
    should_generate_pdf_flexible pdfBadInsights =
      .error (.typeError "object has no len") := by
  exact ⟨by decide, by decide⟩

/-- C7 amended: the PDF gate returns `True` exactly when the avatar
section is present AND truthy and the `insights_exclusivos` value
(defaulting to `[]`) has a length of at least 1; it raises exactly when
the avatar value is truthy but the insights value has no length
(`TypeError`); in every other case it returns `False`. -/
theorem claim_C7_amended (analysis : PyDict) :
    ((∃ s, should_generate_pdf_flexible analysis = .ok (true, s)) ↔
      (truthy (aGet analysis "avatar_ultra_detalhado" PyVal.none) = true ∧
       ∃ n, pyLen (aGet analysis "insights_exclusivos" (.list [])) = .ok n ∧ 1 ≤ n)) ∧
    ((∃ e, should_generate_pdf_flexible analysis = .error e) ↔
      (truthy (aGet analysis "avatar_ultra_detalhado" PyVal.none) = true ∧
       ∃ e, pyLen (aGet analysis "insights_exclusivos" (.list [])) = .error e)) := by
  unfold should_generate_pdf_flexible
  by_cases hem : analysis.isEmpty
  · have hnil : analysis = [] := List.isEmpty_iff.mp hem
    subst hnil
    simp [aGet, truthy]
  · rw [if_neg (by simp [hem])]
    by_cases hav : truthy (aGet analysis "avatar_ultra_detalhado" PyVal.none) = true
    · rw [hav]
      simp only [Bool.not_true, Bool.false_eq_true, if_false]
      cases hl : pyLen (aGet analysis "insights_exclusivos" (.list [])) with
      | error e => simp [hav]
      | ok n =>
        by_cases hn : n < 1
        · have hn0 : n = 0 := Nat.lt_one_iff.mp hn
          subst hn0
          simp [hav]
        · have hle : 1 ≤ n := Nat.le_of_not_lt hn
          simp [hav, hn, hle]
    · rw [Bool.not_eq_true] at hav
      rw [hav]
      simp [hav]

/-!  ## Substring machinery for the cleaning claims  -/

lemma prefL_iff (p l : List Char) : prefL p l = true ↔ ∃ t, l = p ++ t := by
  induction p generalizing l with
  | nil => simp [prefL]
  | cons a as ih =>
    cases l with
    | nil => simp [prefL]
    | cons b bs =>
      simp only [prefL, Bool.and_eq_true, beq_iff_eq, ih, List.cons_append,
        List.cons.injEq]
      constructor
      · rintro ⟨rfl, t, rfl⟩
        exact ⟨t, rfl, rfl⟩
      · rintro ⟨t, rfl, rfl⟩
        exact ⟨rfl, t, rfl⟩

lemma subL_iff (p l : List Char) : subL p l = true ↔ Seg p l := by
  induction l with
  | nil =>
    simp only [subL, List.isEmpty_iff, Seg]
    constructor
    · rintro rfl
      exact ⟨[], [], rfl⟩
    · rintro ⟨a, b, h⟩
      rcases List.append_eq_nil.mp (List.append_eq_nil.mp h.symm).1 with ⟨-, h2⟩
      exact h2
  | cons c cs ih =>
    simp only [subL, Bool.or_eq_true, prefL_iff, ih]
    constructor
    · rintro (⟨t, ht⟩ | ⟨a, b, hab⟩)
      · exact ⟨[], t, by simpa using ht⟩
      · exact ⟨c :: a, b, by simp [hab]⟩
    · rintro ⟨a, b, h⟩
      cases a with
      | nil => exact Or.inl ⟨b, by simpa using h⟩
      | cons a0 as =>
        simp only [List.cons_append, List.cons.injEq, List.append_assoc] at h
        exact Or.inr ⟨as, b, by simp [h.2]⟩

lemma Seg.trans {p q r : List Char} (h1 : Seg p q) (h2 : Seg q r) : Seg p r := by
  obtain ⟨a, b, rfl⟩ := h1
  obtain ⟨c, d, rfl⟩ := h2
  exact ⟨c ++ a, b ++ d, by simp⟩

lemma Seg.map (f : Char → Char) {p l : List Char} (h : Seg p l) :
    Seg (p.map f) (l.map f) := by
  obtain ⟨a, b, rfl⟩ := h
  exact ⟨a.map f, b.map f, by simp⟩

lemma Seg.refl (p : List Char) : Seg p p := ⟨[], [], by simp⟩

lemma strToList_append (a b : String) : (a ++ b).toList = a.toList ++ b.toList := by
  cases a
  cases b
  rfl

/-- Marker containment is monotone along contiguous containment. -/
lemma containsMarker_mono {s t : String} (h : Seg s.toList t.toList)
    (hc : containsMarker s = true) : containsMarker t = true := by
  unfold containsMarker at hc ⊢
  rw [List.any_eq_true] at hc ⊢
  obtain ⟨m, hm, hsub⟩ := hc
  refine ⟨m, hm, ?_⟩
  rw [subL_iff] at hsub ⊢
  exact hsub.trans (Seg.map Char.toUpper h)

lemma containsMarker_mono_false {s t : String} (h : Seg s.toList t.toList)
    (hc : containsMarker t = false) : containsMarker s = false := by
  by_contra hne
  rw [Bool.not_eq_false] at hne
  rw [containsMarker_mono h hne] at hc
  cases hc

lemma seg_left (x y : String) : Seg x.toList (x ++ y).toList :=
  ⟨[], y.toList, by simp [strToList_append]⟩

lemma seg_right (x y : String) : Seg y.toList (x ++ y).toList :=
  ⟨x.toList, [], by simp [strToList_append]⟩

/-- Every rendered entry occurs inside the rendered entry list. -/
lemma seg_entry_reprEntries :
    ∀ (kvs : List (String × PyVal)) (k : String) (v : PyVal), (k, v) ∈ kvs →
      Seg ("'" ++ k ++ "': " ++ pyRepr v).toList (reprEntries kvs).toList := by
  intro kvs
  induction kvs with
  | nil => intro k v h; cases h
  | cons kv0 rest ih =>
    intro k v h
    cases rest with
    | nil =>
      rw [List.mem_singleton] at h
      subst h
      exact Seg.refl _
    | cons kv1 rest2 =>
      rcases List.mem_cons.mp h with h0 | h1
      · subst h0
        rw [reprEntries]
        exact (seg_left _ ", ").trans (seg_left _ (reprEntries (kv1 :: rest2)))
      · rw [reprEntries]
        exact (ih k v h1).trans (seg_right _ _)

/-- Every rendered item occurs inside the rendered item list. -/
lemma seg_item_reprItems :
    ∀ (xs : List PyVal) (x : PyVal), x ∈ xs →
      Seg (pyRepr x).toList (reprItems xs).toList := by
  intro xs
  induction xs with
  | nil => intro x h; cases h
  | cons x0 rest ih =>
    intro x h
    cases rest with
    | nil =>
      rw [List.mem_singleton] at h
      subst h
      exact Seg.refl _
    | cons x1 rest2 =>
      rcases List.mem_cons.mp h with h0 | h1
      · subst h0
        rw [reprItems]
        exact (seg_left _ ", ").trans (seg_left _ (reprItems (x1 :: rest2)))
      · rw [reprItems]
        exact (ih x h1).trans (seg_right _ _)

lemma seg_key_dict {kvs : List (String × PyVal)} {k : String} {v : PyVal}
    (h : (k, v) ∈ kvs) : Seg k.toList (pyRepr (.dict kvs)).toList := by
  have h1 : Seg k.toList ("'" ++ k ++ "': " ++ pyRepr v).toList :=
    ((seg_right "'" k).trans (seg_left _ "': ")).trans (seg_left _ (pyRepr v))
  have h2 := seg_entry_reprEntries kvs k v h
  have h3 : Seg (reprEntries kvs).toList (pyRepr (.dict kvs)).toList := by
    rw [pyRepr]
    exact (seg_right "\x7b" _).trans (seg_left _ "\x7d")
  exact (h1.trans h2).trans h3

lemma seg_value_dict {kvs : List (String × PyVal)} {k : String} {v : PyVal}
    (h : (k, v) ∈ kvs) : Seg (pyRepr v).toList (pyRepr (.dict kvs)).toList := by
  have h1 : Seg (pyRepr v).toList ("'" ++ k ++ "': " ++ pyRepr v).toList :=
    seg_right _ (pyRepr v)
  have h2 := seg_entry_reprEntries kvs k v h
  have h3 : Seg (reprEntries kvs).toList (pyRepr (.dict kvs)).toList := by
    rw [pyRepr]
    exact (seg_right "\x7b" _).trans (seg_left _ "\x7d")
  exact (h1.trans h2).trans h3

lemma seg_item_list {xs : List PyVal} {x : PyVal} (h : x ∈ xs) :
    Seg (pyRepr x).toList (pyRepr (.list xs)).toList := by
  have h2 := seg_item_reprItems xs x h
  have h3 : Seg (reprItems xs).toList (pyRepr (.list xs)).toList := by
    rw [pyRepr]
    exact (seg_right "[" _).trans (seg_left _ "]")
  exact h2.trans h3

lemma seg_pyStr_pyRepr (v : PyVal) : Seg (pyStr v).toList (pyRepr v).toList := by
  cases v with
  | str s => exact (seg_right "'" s).trans (seg_left _ "'")
  | none => exact Seg.refl _
  | num q => exact Seg.refl _
  | list xs => exact Seg.refl _
  | dict kvs => exact Seg.refl _

lemma cleanItems_eq_self {xs : List PyVal}
    (hn : ∀ x ∈ xs, containsMarker (pyStr x) = false)
    (hc : ∀ x ∈ xs, cleanRec x = x) : cleanItems xs = xs := by
  induction xs with
  | nil => rfl
  | cons x rest irec =>
    rw [cleanItems, if_neg (by simp [hn x (List.mem_cons_self x rest)])]
    rw [hc x (List.mem_cons_self x rest)]
    rw [irec (fun y hy => hn y (List.mem_cons_of_mem x hy))
      (fun y hy => hc y (List.mem_cons_of_mem x hy))]

lemma cleanEntries_eq_self {kvs : List (String × PyVal)}
    (hk : ∀ kv ∈ kvs, containsMarker kv.1 = false)
    (hc : ∀ kv ∈ kvs, cleanRec kv.2 = kv.2) : cleanEntries kvs = kvs := by
  induction kvs with
  | nil => rfl
  | cons kv rest irec =>
    obtain ⟨k, v⟩ := kv
    rw [cleanEntries, if_neg (by simp [hk (k, v) (List.mem_cons_self _ rest)])]
    rw [show cleanRec v = v from hc (k, v) (List.mem_cons_self _ rest)]
    rw [irec (fun y hy => hk y (List.mem_cons_of_mem _ hy))
      (fun y hy => hc y (List.mem_cons_of_mem _ hy))]

/-- A value whose full `str()` rendering is marker-free is left untouched
by the recursive cleaner: every nested key and every nested rendering
occurs inside the whole rendering, so nothing can be filtered. -/
lemma cleanRec_eq_self : ∀ v : PyVal, containsMarker (pyStr v) = false → cleanRec v = v := by
  intro v
  induction v using PyVal.inductionOn with
  | hnone => intro _; rfl
  | hnum q => intro _; rfl
  | hstr s => intro _; rfl
  | hlist xs ih =>
    intro h
    have hx : ∀ x ∈ xs, containsMarker (pyStr x) = false := fun x hmem =>
      containsMarker_mono_false ((seg_pyStr_pyRepr x).trans (seg_item_list hmem)) h
    rw [cleanRec, cleanItems_eq_self hx (fun x hmem => ih x hmem (hx x hmem))]
  | hdict kvs ih =>
    intro h
    have hpair : ∀ kv ∈ kvs, (kv.1, kv.2) ∈ kvs := fun kv hkv => by simpa using hkv
    have hk : ∀ kv ∈ kvs, containsMarker kv.1 = false := fun kv hkv =>
      containsMarker_mono_false (seg_key_dict (hpair kv hkv)) h
    have hv : ∀ kv ∈ kvs, containsMarker (pyStr kv.2) = false := fun kv hkv =>
      containsMarker_mono_false
        ((seg_pyStr_pyRepr kv.2).trans (seg_value_dict (hpair kv hkv))) h
    rw [cleanRec, cleanEntries_eq_self hk (fun kv hkv => ih kv hkv (hv kv hkv))]

lemma cleanItems_idem {xs : List PyVal}
    (ih : ∀ x ∈ xs, cleanRec (cleanRec x) = cleanRec x) :
    cleanItems (cleanItems xs) = cleanItems xs := by
  induction xs with
  | nil => rfl
  | cons x rest irec =>
    have ihrest : ∀ y ∈ rest, cleanRec (cleanRec y) = cleanRec y :=
      fun y hy => ih y (List.mem_cons_of_mem x hy)
    rw [cleanItems]
    by_cases hm : containsMarker (pyStr x) = true
    · rw [if_pos hm]
      exact irec ihrest
    · rw [Bool.not_eq_true] at hm
      rw [if_neg (by simp [hm])]
      have hcx : cleanRec x = x := cleanRec_eq_self x hm
      rw [cleanItems, hcx, if_neg (by simp [hm]), irec ihrest, hcx]

lemma cleanEntries_idem {kvs : List (String × PyVal)}
    (ih : ∀ kv ∈ kvs, cleanRec (cleanRec kv.2) = cleanRec kv.2) :
    cleanEntries (cleanEntries kvs) = cleanEntries kvs := by
  induction kvs with
  | nil => rfl
  | cons kv rest irec =>
    have ihrest : ∀ y ∈ rest, cleanRec (cleanRec y.2) = cleanRec y.2 :=
      fun y hy => ih y (List.mem_cons_of_mem kv hy)
    obtain ⟨k, v⟩ := kv
    rw [cleanEntries]
    by_cases hm : containsMarker k = true
    · rw [if_pos hm]
      exact irec ihrest
    · rw [Bool.not_eq_true] at hm
      rw [if_neg (by simp [hm])]
      rw [cleanEntries, if_neg (by simp [hm])]
      rw [irec ihrest, ih (k, v) (List.mem_cons_self _ rest)]

lemma cleanRec_idem : ∀ v : PyVal, cleanRec (cleanRec v) = cleanRec v := by
  intro v
  induction v using PyVal.inductionOn with
  | hnone => rfl
  | hnum q => rfl
  | hstr s => rfl
  | hlist xs ih => rw [cleanRec, cleanRec, cleanItems_idem ih]
  | hdict kvs ih => rw [cleanRec, cleanRec, cleanEntries_idem ih]

lemma cleanEntries_eq_filter_map (kvs : List (String × PyVal)) :
    cleanEntries kvs =
      (kvs.filter (fun kv => !containsMarker kv.1)).map (fun kv => (kv.1, cleanRec kv.2)) := by
  induction kvs with
  | nil => rfl
  | cons kv rest ih =>
    obtain ⟨k, v⟩ := kv
    rw [cleanEntries]
    by_cases hm : containsMarker k = true
    · rw [if_pos hm]
      simp only [List.filter_cons, hm, Bool.not_true, Bool.false_eq_true, if_false]
      exact ih
    · rw [Bool.not_eq_true] at hm
      rw [if_neg (by simp [hm])]
      simp only [List.filter_cons, hm, Bool.not_false, if_true, List.map_cons]
      rw [ih]

lemma cleanItems_eq_filter_map (xs : List PyVal) :
    cleanItems xs = (xs.filter (fun x => !containsMarker (pyStr x))).map cleanRec := by
  induction xs with
  | nil => rfl
  | cons x rest ih =>
    rw [cleanItems]
    by_cases hm : containsMarker (pyStr x) = true
    · rw [if_pos hm]
      simp only [List.filter_cons, hm, Bool.not_true, Bool.false_eq_true, if_false]
      exact ih
    · rw [Bool.not_eq_true] at hm
      rw [if_neg (by simp [hm])]
      simp only [List.filter_cons, hm, Bool.not_false, if_true, List.map_cons]
      rw [ih]

/-- C6 counterexample: (i) the cleaner KEEPS the entry `'k': 'ERRO_X'`
although its value contains the marker `ERRO_` (only keys are tested on
dict entries), and (ii) the full function is not idempotent: a second
application records a different `original_size` in
`validation_metadata`, so the result changes. -/
theorem claim_C6_counterexample :
    aGet (clean_analysis_for_output_flexible cleanSample "T") "k" .none = .str "ERRO_X" ∧
    containsMarker (pyStr (.str "ERRO_X")) = true ∧
    clean_analysis_for_output_flexible (clean_analysis_for_output_flexible cleanSample "T") "T" ≠
      clean_analysis_for_output_flexible cleanSample "T" := by
  refine ⟨by with_unfolding_all rfl, by decide, ?_⟩
  intro h
  have h2 := congrArg metaOriginalSize h
  rw [show metaOriginalSize (clean_analysis_for_output_flexible
        (clean_analysis_for_output_flexible cleanSample "T") "T") = PyVal.num 183 from by
      with_unfolding_all rfl,
    show metaOriginalSize (clean_analysis_for_output_flexible cleanSample "T") = PyVal.num 15 from by
      with_unfolding_all rfl] at h2
  injection h2 with h3
  exact absurd h3 (by norm_num)

/-- C6 amended: the recursive cleaner removes exactly the dict entries
whose KEY contains a banned marker (cleaning the kept values in place)
and the list items whose `str()` rendering contains one, and it is
idempotent.  (The surrounding `clean_analysis_for_output_flexible` is
not idempotent, as the counterexample shows, because it re-attaches
fresh `validation_metadata`.) -/
theorem claim_C6_amended :
    (∀ kvs : List (String × PyVal), cleanEntries kvs =
      (kvs.filter (fun kv => !containsMarker kv.1)).map (fun kv => (kv.1, cleanRec kv.2))) ∧
    (∀ xs : List PyVal, cleanItems xs =
      (xs.filter (fun x => !containsMarker (pyStr x))).map cleanRec) ∧
    (∀ v : PyVal, cleanRec (cleanRec v) = cleanRec v) :=
  ⟨cleanEntries_eq_filter_map, cleanItems_eq_filter_map, cleanRec_idem⟩
